import Mathlib

/-!
# A/V streaming server: formal model and verification

Shallow embedding of the server's core components — the wire protocol
(`MessageHeader`, `Message`), the byte ring buffer (`CircularBuffer`), the
per-connection extraction engine (`Connection`), the thread-safe queue
(`SafeQueue`), the compression engine and the pipeline/distribution loops —
together with theorems checking the specification's claims against them.

Machine integers are modelled as `Nat` with explicit `% 2^w` reductions at
the points where the C++ code performs an implicit conversion; bytes are
`Fin 256`; the mutexes and condition variables of the source synchronise
access but do not affect the sequential functional semantics modelled here.
-/

set_option maxRecDepth 10000

/-- A byte, as stored in the C++ `uint8_t` buffers. -/
abbrev Byte := Fin 256

/-- Little-endian encoding of `n` into exactly `w` bytes (the byte image of a
`uintN_t` field under `memcpy` on a little-endian target, truncating at `2^(8*w)`
exactly as storage into the fixed-width field does). -/
def toLE : Nat → Nat → List Byte
  | 0, _ => []
  | w + 1, n => ⟨n % 256, Nat.mod_lt _ (by norm_num)⟩ :: toLE w (n / 256)

/-- Little-endian decoding of a byte list back into a `Nat`. -/
def fromLE : List Byte → Nat
  | [] => 0
  | b :: bs => b.val + 256 * fromLE bs

namespace MessageHeader

/-- `MessageHeader::MAGIC_NUMBER`. -/
def MAGIC_NUMBER : Nat := 0xABCD1234

/-- `MessageHeader::HEADER_SIZE` (bytes). -/
def HEADER_SIZE : Nat := 20

/-- The `MAX_PAYLOAD_SIZE` constant of `MessageHeader::is_valid` (100 MiB). -/
def MAX_PAYLOAD_SIZE : Nat := 100 * 1024 * 1024

end MessageHeader

/-- The `MessageHeader` struct: magic (u32), type (u16), payload_size (u32),
timestamp (u64), header_crc (u16). The spec pins the serialized form to the
packed 20-byte little-endian layout documented in the struct (bytes 0-3 magic,
4-5 type, 6-9 payload size, 10-17 timestamp, 18-19 CRC). -/
structure MessageHeader where
  magic : Nat
  type : Nat
  payload_size : Nat
  timestamp : Nat
  header_crc : Nat
deriving DecidableEq, Repr

namespace MessageHeader

/-- One bit step of the CRC-16 loop body: `if (crc & 1) crc = (crc >> 1) ^ 0xA001;
else crc >>= 1;`. -/
def crcShift (c : Nat) : Nat :=
  if c % 2 = 1 then (c / 2) ^^^ 0xA001 else c / 2

/-- One byte step of `MessageHeader::calculate_crc`: `crc ^= data[i]` followed by
eight bit steps. -/
def crcByteStep (c : Nat) (b : Byte) : Nat :=
  crcShift^[8] (c ^^^ b.val)

/-- CRC-16 with polynomial 0xA001, initial value 0xFFFF, reflected bit-by-bit
update, over a byte sequence. -/
def crc16 (bs : List Byte) : Nat :=
  bs.foldl crcByteStep 0xFFFF

/-- The first 18 bytes of the header's 20-byte wire image (the range covered by
`calculate_crc`, which reads bytes 0..17 of the header). -/
def headerBytes18 (h : MessageHeader) : List Byte :=
  toLE 4 h.magic ++ toLE 2 h.type ++ toLE 4 h.payload_size ++ toLE 8 h.timestamp

/-- `MessageHeader::calculate_crc`: CRC-16 (poly 0xA001, init 0xFFFF) over the
header's bytes 0..17; the stored `header_crc` field is not covered. -/
def calculate_crc (h : MessageHeader) : Nat :=
  crc16 (headerBytes18 h)

/-- `MessageHeader::is_valid`: magic check, then payload-size bound, then CRC
comparison; the first failing check returns false. -/
def is_valid (h : MessageHeader) : Bool :=
  if h.magic ≠ MAGIC_NUMBER then false
  else if h.payload_size > MAX_PAYLOAD_SIZE then false
  else if h.header_crc ≠ calculate_crc h then false
  else true

/-- The `MessageHeader(msg_type, payload_sz, ts)` constructor: sets the magic,
narrows each argument to its field width, initialises `header_crc` to 0 and
then overwrites it with `calculate_crc()` (which reads the other fields
only). -/
def ctor (msg_type payload_sz ts : Nat) : MessageHeader :=
  ⟨MAGIC_NUMBER, msg_type % 2 ^ 16, payload_sz % 2 ^ 32, ts % 2 ^ 64,
    calculate_crc ⟨MAGIC_NUMBER, msg_type % 2 ^ 16, payload_sz % 2 ^ 32, ts % 2 ^ 64, 0⟩⟩

/-- `MessageHeader::serialize`: the 20-byte wire image of the header
(`memcpy` of the packed little-endian layout: magic at 0, type at 4,
payload size at 6, timestamp at 10, stored CRC at 18). -/
def serialize (h : MessageHeader) : List Byte :=
  headerBytes18 h ++ toLE 2 h.header_crc

/-- `MessageHeader::deserialize`: reads the five fields back from the packed
little-endian byte offsets 0, 4, 6, 10, 18. -/
def deserialize (bs : List Byte) : MessageHeader :=
  { magic := fromLE (bs.take 4)
    type := fromLE ((bs.drop 4).take 2)
    payload_size := fromLE ((bs.drop 6).take 4)
    timestamp := fromLE ((bs.drop 10).take 8)
    header_crc := fromLE ((bs.drop 18).take 2) }

end MessageHeader

/-- The `Message` class: header, payload vector, and the `valid_` flag. -/
structure Message where
  header : MessageHeader
  payload : List Byte
  valid : Bool
deriving DecidableEq, Repr

namespace Message

/-- The `Message(type, payload_size, timestamp)` constructor: builds the header
(computing its CRC) and leaves the payload empty. -/
def ctor (type payload_size timestamp : Nat) : Message :=
  { header := MessageHeader.ctor type payload_size timestamp
    payload := []
    valid := true }

/-- `Message::set_payload(data, size)` with `size = data.length`: copies the
bytes and updates `header_.payload_size`, but does not recompute the header
CRC (the source leaves `header_crc` untouched here). -/
def set_payload (m : Message) (data : List Byte) : Message :=
  if data.isEmpty then
    { m with payload := [], header := { m.header with payload_size := 0 } }
  else
    { m with
      payload := data
      header := { m.header with payload_size := data.length % 2 ^ 32 } }

/-- `Message::to_bytes`: the 20-byte header image followed contiguously by the
payload. -/
def to_bytes (m : Message) : List Byte :=
  m.header.serialize ++ m.payload

/-- `Message::from_bytes(data, size)` acting on receiver `m`: needs 20 bytes,
deserializes and validates the header, needs `20 + payload_size` bytes, then
extracts the payload; returns the mutated message and the success flag. -/
def from_bytes (m : Message) (bs : List Byte) : Message × Bool :=
  if bs.length < MessageHeader.HEADER_SIZE then ({ m with valid := false }, false)
  else
    let h := MessageHeader.deserialize bs
    let m1 : Message := { m with header := h }
    if ¬ h.is_valid then ({ m1 with valid := false }, false)
    else if bs.length < MessageHeader.HEADER_SIZE + h.payload_size then
      ({ m1 with valid := false }, false)
    else
      ({ m1 with
          payload := (bs.drop MessageHeader.HEADER_SIZE).take h.payload_size
          valid := true }, true)

/-- `Message::is_valid`: the `valid_` flag together with header validity. -/
def is_valid (m : Message) : Bool :=
  m.valid && m.header.is_valid

/-- A message built the documented way (`Message msg(type, n); msg.set_payload(data, n)`
with `n = data.length`, as in the class's usage example and in
`MediaProcessor::process_loop`). -/
def build (type : Nat) (data : List Byte) (timestamp : Nat) : Message :=
  (ctor type data.length timestamp).set_payload data

end Message

/-- The `CircularBuffer` state: fixed capacity, backing byte array (modelled as
a list of length `capacity`, zero-initialised by `make_unique<uint8_t[]>`), and
the two positions. -/
structure CircularBuffer where
  capacity : Nat
  buffer : List Byte
  write_pos : Nat
  read_pos : Nat
deriving DecidableEq, Repr

namespace CircularBuffer

/-- The `CircularBuffer(capacity)` constructor. -/
def ctor (capacity : Nat) : CircularBuffer :=
  { capacity := capacity
    buffer := List.replicate capacity 0
    write_pos := 0
    read_pos := 0 }

/-- `CircularBuffer::available_data` / `available_data_unlocked`: the logical
fill computed from the two positions. -/
def available_data (s : CircularBuffer) : Nat :=
  if s.write_pos ≥ s.read_pos then s.write_pos - s.read_pos
  else s.capacity - s.read_pos + s.write_pos

/-- `memcpy(buffer + pos, src, src.length)` into the backing array (no wrap;
callers split wrapped copies into two of these). -/
def bufWrite (buf : List Byte) (pos : Nat) (src : List Byte) : List Byte :=
  buf.take pos ++ src ++ buf.drop (pos + src.length)

/-- `CircularBuffer::write(data, size)` with `size = data.length`: writes
`min(size, capacity - fill)` bytes, in one or two `memcpy`s around the wrap,
and returns the amount written with the new state. -/
def write (s : CircularBuffer) (data : List Byte) : Nat × CircularBuffer :=
  if data.isEmpty then (0, s)
  else
    let available := s.capacity - s.available_data
    let bytes_to_write := min data.length available
    if bytes_to_write = 0 then (0, s)
    else if s.write_pos + bytes_to_write ≤ s.capacity then
      (bytes_to_write,
        { s with
          buffer := bufWrite s.buffer s.write_pos (data.take bytes_to_write)
          write_pos := (s.write_pos + bytes_to_write) % s.capacity })
    else
      let first_part := s.capacity - s.write_pos
      let second_part := bytes_to_write - first_part
      (bytes_to_write,
        { s with
          buffer := bufWrite (bufWrite s.buffer s.write_pos (data.take first_part))
            0 ((data.drop first_part).take second_part)
          write_pos := second_part })

/-- The bytes `CircularBuffer::read`/`peek` copy out for a request of `n`
bytes (`min(n, fill)` bytes starting at `read_pos`, wrapping if needed). -/
def outBytes (s : CircularBuffer) (n : Nat) : List Byte :=
  let bytes_to_read := min n s.available_data
  if bytes_to_read = 0 then []
  else if s.read_pos + bytes_to_read ≤ s.capacity then
    (s.buffer.drop s.read_pos).take bytes_to_read
  else
    let first_part := s.capacity - s.read_pos
    (s.buffer.drop s.read_pos).take first_part ++
      s.buffer.take (bytes_to_read - first_part)

/-- `CircularBuffer::read(data, size)`: returns the copied bytes and advances
`read_pos` (wrapping), exactly as the source's two cases do. -/
def read (s : CircularBuffer) (n : Nat) : List Byte × CircularBuffer :=
  let bytes_to_read := min n s.available_data
  if bytes_to_read = 0 then ([], s)
  else if s.read_pos + bytes_to_read ≤ s.capacity then
    (outBytes s n, { s with read_pos := (s.read_pos + bytes_to_read) % s.capacity })
  else
    (outBytes s n, { s with read_pos := bytes_to_read - (s.capacity - s.read_pos) })

/-- `CircularBuffer::peek(data, size)`: the same bytes as `read`, with
`read_pos` left unchanged. -/
def peek (s : CircularBuffer) (n : Nat) : List Byte :=
  outBytes s n

/-- `CircularBuffer::clear`: resets both positions to zero. -/
def clear (s : CircularBuffer) : CircularBuffer :=
  { s with read_pos := 0, write_pos := 0 }

/-- Well-formedness maintained by the constructor and all operations: the
backing array has length `capacity` and both positions are in `[0, capacity)`. -/
def WF (s : CircularBuffer) : Prop :=
  s.buffer.length = s.capacity ∧ s.read_pos < s.capacity ∧ s.write_pos < s.capacity

instance (s : CircularBuffer) : Decidable s.WF := by
  unfold WF; infer_instance

end CircularBuffer

namespace Connection

/-- The outcome of one `Connection::try_extract_message` call, one constructor
per `return` path of the source. -/
inductive ExtractOutcome
  /-- fewer than 20 buffered bytes: wait for more data -/
  | needMoreHeader
  /-- the 20-byte peek came back short (`peeked != HEADER_SIZE`) -/
  | peekShort
  /-- header failed `is_valid`: framing error, ring buffer cleared -/
  | badHeader
  /-- fewer than `20 + payload_size` buffered bytes: wait for more data -/
  | needMoreBody
  /-- `read` returned fewer bytes than requested -/
  | readShort
  /-- `Message::from_bytes` failed after a valid header -/
  | deserFail
  /-- a complete message was extracted -/
  | extracted (m : Message)
deriving DecidableEq, Repr

/-- `Connection::try_extract_message` acting on the receive ring buffer:
peek 20 bytes, validate the header (clearing the buffer on failure), wait for
the full message, then read and deserialize it. Returns the outcome and the
new buffer state. -/
def try_extract_message (s : CircularBuffer) : ExtractOutcome × CircularBuffer :=
  if s.available_data < MessageHeader.HEADER_SIZE then (.needMoreHeader, s)
  else
    let header_buf := s.peek MessageHeader.HEADER_SIZE
    if header_buf.length ≠ MessageHeader.HEADER_SIZE then (.peekShort, s)
    else
      let header := MessageHeader.deserialize header_buf
      if ¬ header.is_valid then (.badHeader, s.clear)
      else
        let total_needed := MessageHeader.HEADER_SIZE + header.payload_size
        if s.available_data < total_needed then (.needMoreBody, s)
        else
          let (msg_data, s1) := s.read total_needed
          if msg_data.length ≠ total_needed then (.readShort, s1)
          else
            match (Message.ctor 0 0 0).from_bytes msg_data with
            | (m, true) => (.extracted m, s1)
            | (_, false) => (.deserFail, s1)

end Connection

/-- The `SafeQueue<T>` state: the underlying `std::queue` (front at the list
head) and the `shutdown_` flag. -/
structure SafeQueue (α : Type) where
  items : List α
  shutdown_flag : Bool
deriving DecidableEq, Repr

namespace SafeQueue

/-- The result of `SafeQueue::pop` for the waiting consumer. -/
inductive PopOutcome (α : Type)
  /-- the wait predicate `!queue.empty() || shutdown_` is false: the caller blocks -/
  | blocked
  /-- shutdown with an empty queue: `pop` returns false -/
  | closed
  /-- an item was popped: `pop` returns true -/
  | popped (a : α)
deriving DecidableEq, Repr

/-- `SafeQueue::push`: unconditionally appends to the back of the queue.
There is no capacity bound and the `shutdown_` flag is not consulted. -/
def push (q : SafeQueue α) (x : α) : SafeQueue α :=
  { q with items := q.items ++ [x] }

/-- `SafeQueue::pop`: blocks while the queue is empty and not shut down;
then returns false if shut down and empty, otherwise pops the front. -/
def pop (q : SafeQueue α) : PopOutcome α × SafeQueue α :=
  if ¬ (¬ q.items.isEmpty ∨ q.shutdown_flag) then (.blocked, q)
  else if q.shutdown_flag && q.items.isEmpty then (.closed, q)
  else
    match q.items with
    | x :: rest => (.popped x, { q with items := rest })
    | [] => (.closed, q)

/-- `SafeQueue::shutdown`: sets the flag (and wakes all waiters). -/
def shutdown (q : SafeQueue α) : SafeQueue α :=
  { q with shutdown_flag := true }

/-- Repeated `pop` calls, up to `fuel` of them, collecting items while `pop`
keeps returning true; stops at the first non-`popped` outcome. -/
def drainFuel : Nat → SafeQueue α → List α × SafeQueue α
  | 0, q => ([], q)
  | fuel + 1, q =>
    match pop q with
    | (.popped x, q1) =>
      let (xs, qf) := drainFuel fuel q1
      (x :: xs, qf)
    | (_, q1) => ([], q1)

end SafeQueue

/-- The `AVFrame` struct (frame kinds and codec tags as their enum codes). -/
structure AVFrame where
  frame_type : Nat
  codec_type : Nat
  width : Nat
  height : Nat
  sample_rate : Nat
  channels : Nat
  timestamp : Nat
  pts : Nat
  data : List Byte
  size : Nat
  bitrate : Nat
  quality : Nat
deriving DecidableEq, Repr

/-- The `CompressionConfig` fields used by the encoder (`quality` is a C++
`int`, so modelled signed). -/
structure CompressionConfig where
  compression_level : Int
  quality : Int
  target_bitrate : Nat
deriving DecidableEq, Repr

namespace CompressionEngine

/-- `CompressionEngine::compress_data(original_size)`: quality ≥ 80 uses ratio
0.75, quality in [50, 80) uses 0.60, below 50 uses 0.40, and the product is
truncated to `uint32_t`. For these three ratios the double computation
`static_cast<uint32_t>(original_size * ratio)` yields exactly the floor of the
rational product for every `uint32_t` input (0.75 is exact in binary; for 0.60
and 0.40 the relative rounding error of the product is below half an ulp away
from every integer crossing over the whole `uint32_t` range), so the model uses
exact `Nat` floor division. -/
def compress_data (cfg : CompressionConfig) (original_size : Nat) : Nat :=
  if cfg.quality ≥ 80 then original_size * 3 / 4
  else if cfg.quality ≥ 50 then original_size * 3 / 5
  else original_size * 2 / 5

/-- `CompressionEngine::encode_video(input, output)`: fails unless the engine
is running; otherwise fills the pooled output frame `o`, preserving the input
timestamp, and sizes the payload from the nominal YUV420 image size
`(width * height * 3) / 2` computed in `uint32_t` arithmetic. -/
def encode_video (running : Bool) (cfg : CompressionConfig)
    (input o : AVFrame) : Option AVFrame :=
  if ¬ running then none
  else
    let original_size := input.width * input.height * 3 % 2 ^ 32 / 2
    let compressed_size := compress_data cfg original_size
    some { o with
      frame_type := 0
      codec_type := input.codec_type
      width := input.width
      height := input.height
      bitrate := cfg.target_bitrate
      quality := cfg.quality.toNat % 256
      timestamp := input.timestamp
      data := List.replicate compressed_size 0
      size := compressed_size }

/-- `CompressionEngine::encode_audio(input, output)`: like `encode_video`, but
the size base is the input frame's own byte size `input->size`. -/
def encode_audio (running : Bool) (cfg : CompressionConfig)
    (input o : AVFrame) : Option AVFrame :=
  if ¬ running then none
  else
    let compressed_size := compress_data cfg input.size
    some { o with
      frame_type := 3
      codec_type := input.codec_type
      sample_rate := input.sample_rate
      channels := input.channels
      bitrate := cfg.target_bitrate
      quality := cfg.quality.toNat % 256
      timestamp := input.timestamp
      data := List.replicate compressed_size 0
      size := compressed_size }

end CompressionEngine

namespace MediaProcessor

/-- The video half of one `MediaProcessor::process_loop` iteration as it
affects the output `message_queue_`: if a raw video frame was captured and
encoding (into the pooled frame `oV`) succeeds, a type-1 (`VIDEO_FRAME`)
message carrying the encoded bytes, stamped `tsV`, is pushed. -/
def videoStage (cfg : CompressionConfig) (engineRunning : Bool)
    (rawVideo : Option AVFrame) (oV : AVFrame) (tsV : Nat)
    (outq : SafeQueue Message) : SafeQueue Message :=
  match rawVideo with
  | none => outq
  | some v =>
    match CompressionEngine.encode_video engineRunning cfg v oV with
    | none => outq
    | some ev => outq.push (Message.build 1 ev.data tsV)

/-- The audio half of one `MediaProcessor::process_loop` iteration: like
`videoStage` but with `encode_audio` and a type-2 (`AUDIO_FRAME`) message. -/
def audioStage (cfg : CompressionConfig) (engineRunning : Bool)
    (rawAudio : Option AVFrame) (oA : AVFrame) (tsA : Nat)
    (outq : SafeQueue Message) : SafeQueue Message :=
  match rawAudio with
  | none => outq
  | some a =>
    match CompressionEngine.encode_audio engineRunning cfg a oA with
    | none => outq
    | some ea => outq.push (Message.build 2 ea.data tsA)

/-- One full iteration of `MediaProcessor::process_loop` as it affects the
output queue: the video stage, then the audio stage. The loop only ever
pushes to the output queue; it never pops from it. -/
def processIteration (cfg : CompressionConfig) (engineRunning : Bool)
    (rawVideo rawAudio : Option AVFrame) (oV oA : AVFrame) (tsV tsA : Nat)
    (outq : SafeQueue Message) : SafeQueue Message :=
  audioStage cfg engineRunning rawAudio oA tsA
    (videoStage cfg engineRunning rawVideo oV tsV outq)

end MediaProcessor

namespace AVServer

/-- How a subscriber's socket behaves when `Connection::send` runs its
blocking `::send` loop: completes successfully, fails (`sent <= 0`), or never
returns (a stuck peer with a full TCP window). -/
inductive SendBehavior
  | ok
  | failed
  | stuck
deriving DecidableEq, Repr

/-- One entry of the snapshot iterated by `AVServer::distribution_loop`:
client id, the session's `is_active` flag, and the connection resolved by
`get_connection` (`none` when the id no longer resolves), with its socket's
send behavior. -/
structure Subscriber where
  id : Nat
  is_active : Bool
  conn : Option SendBehavior
deriving DecidableEq, Repr

/-- The fan-out of one message in `AVServer::distribution_loop`: a single
`for` loop over the snapshot calling the synchronous `Connection::send`
inline. Returns the ids actually delivered to. A `stuck` send never returns,
so no later iteration of the loop runs: delivery stops there. -/
def fanout : List Subscriber → List Nat
  | [] => []
  | c :: rest =>
    if c.is_active then
      match c.conn with
      | none => fanout rest
      | some .ok => c.id :: fanout rest
      | some .failed => fanout rest
      | some .stuck => []
    else fanout rest

end AVServer

/-! ## Helper lemmas: little-endian coding and the header wire image -/

theorem toLE_length (w n : Nat) : (toLE w n).length = w := by
  induction w generalizing n with
  | zero => rfl
  | succ w ih => simp [toLE, ih]

theorem fromLE_toLE (w n : Nat) : fromLE (toLE w n) = n % 256 ^ w := by
  induction w generalizing n with
  | zero => simp [toLE, fromLE, Nat.mod_one]
  | succ w ih =>
    rw [toLE, fromLE, ih, pow_succ, Nat.mul_comm (256 ^ w) 256, Nat.mod_mul]

theorem fromLE_toLE_of_lt {w n : Nat} (h : n < 256 ^ w) :
    fromLE (toLE w n) = n := by
  rw [fromLE_toLE, Nat.mod_eq_of_lt h]

namespace MessageHeader

theorem headerBytes18_length (h : MessageHeader) : h.headerBytes18.length = 18 := by
  simp [headerBytes18, toLE_length]

theorem serialize_length (h : MessageHeader) : h.serialize.length = 20 := by
  simp [serialize, headerBytes18, toLE_length]

/-- The CRC range is exactly the first 18 bytes of the wire image. -/
theorem headerBytes18_eq_take (h : MessageHeader) :
    h.serialize.take 18 = h.headerBytes18 :=
  List.take_left' h.headerBytes18_length

/-- Reading the packed little-endian layout back recovers a header whose
fields fit their widths, regardless of what follows the 20 header bytes. -/
theorem deserialize_serialize (h : MessageHeader) (rest : List Byte)
    (hm : h.magic < 2 ^ 32) (ht : h.type < 2 ^ 16) (hp : h.payload_size < 2 ^ 32)
    (hts : h.timestamp < 2 ^ 64) (hc : h.header_crc < 2 ^ 16) :
    deserialize (h.serialize ++ rest) = h := by
  have hbs : h.serialize ++ rest =
      toLE 4 h.magic ++ (toLE 2 h.type ++ (toLE 4 h.payload_size ++
        (toLE 8 h.timestamp ++ (toLE 2 h.header_crc ++ rest)))) := by
    simp [serialize, headerBytes18, List.append_assoc]
  have d4 : (h.serialize ++ rest).drop 4 =
      toLE 2 h.type ++ (toLE 4 h.payload_size ++
        (toLE 8 h.timestamp ++ (toLE 2 h.header_crc ++ rest))) := by
    rw [hbs]; exact List.drop_left' (toLE_length 4 h.magic)
  have d6 : (h.serialize ++ rest).drop 6 =
      toLE 4 h.payload_size ++ (toLE 8 h.timestamp ++ (toLE 2 h.header_crc ++ rest)) := by
    have h6 : (6 : Nat) = 4 + 2 := rfl
    rw [h6, ← List.drop_drop, d4]
    exact List.drop_left' (toLE_length 2 h.type)
  have d10 : (h.serialize ++ rest).drop 10 =
      toLE 8 h.timestamp ++ (toLE 2 h.header_crc ++ rest) := by
    have h10 : (10 : Nat) = 6 + 4 := rfl
    rw [h10, ← List.drop_drop, d6]
    exact List.drop_left' (toLE_length 4 h.payload_size)
  have d18 : (h.serialize ++ rest).drop 18 = toLE 2 h.header_crc ++ rest := by
    have h18 : (18 : Nat) = 10 + 8 := rfl
    rw [h18, ← List.drop_drop, d10]
    exact List.drop_left' (toLE_length 8 h.timestamp)
  have p32 : (256 : Nat) ^ 4 = 2 ^ 32 := by norm_num
  have p16 : (256 : Nat) ^ 2 = 2 ^ 16 := by norm_num
  have p64 : (256 : Nat) ^ 8 = 2 ^ 64 := by norm_num
  unfold deserialize
  rw [d4, d6, d10, d18, hbs]
  rw [List.take_left' (toLE_length 4 h.magic),
    List.take_left' (toLE_length 2 h.type),
    List.take_left' (toLE_length 4 h.payload_size),
    List.take_left' (toLE_length 8 h.timestamp),
    List.take_left' (toLE_length 2 h.header_crc)]
  rw [fromLE_toLE_of_lt (p32 ▸ hm), fromLE_toLE_of_lt (p16 ▸ ht),
    fromLE_toLE_of_lt (p32 ▸ hp), fromLE_toLE_of_lt (p64 ▸ hts),
    fromLE_toLE_of_lt (p16 ▸ hc)]

theorem crcShift_lt {c : Nat} (h : c < 2 ^ 16) : crcShift c < 2 ^ 16 := by
  unfold crcShift
  split
  · exact Nat.xor_lt_two_pow (by omega) (by norm_num)
  · omega

theorem crcShift_iter_lt (k : Nat) {c : Nat} (h : c < 2 ^ 16) :
    crcShift^[k] c < 2 ^ 16 := by
  induction k generalizing c with
  | zero => exact h
  | succ k ih => rw [Function.iterate_succ_apply]; exact ih (crcShift_lt h)

theorem crcByteStep_lt {c : Nat} (b : Byte) (h : c < 2 ^ 16) :
    crcByteStep c b < 2 ^ 16 :=
  crcShift_iter_lt 8 (Nat.xor_lt_two_pow h (lt_trans b.isLt (by norm_num)))

theorem crc16_foldl_lt (bs : List Byte) {c : Nat} (h : c < 2 ^ 16) :
    bs.foldl crcByteStep c < 2 ^ 16 := by
  induction bs generalizing c with
  | nil => exact h
  | cons b bs ih => exact ih (crcByteStep_lt b h)

theorem crc16_lt (bs : List Byte) : crc16 bs < 2 ^ 16 :=
  crc16_foldl_lt bs (by norm_num)

/-- `calculate_crc` depends only on the first four fields, not on the stored
CRC. -/
theorem calculate_crc_mk (m t p ts c c' : Nat) :
    calculate_crc ⟨m, t, p, ts, c'⟩ = calculate_crc ⟨m, t, p, ts, c⟩ := rfl

theorem ctor_crc_consistent (t p ts : Nat) :
    (ctor t p ts).header_crc = calculate_crc (ctor t p ts) := by
  unfold ctor
  exact calculate_crc_mk _ _ _ _ _ 0

/-- Field ranges established by the constructor. -/
theorem ctor_ranges (t p ts : Nat) :
    (ctor t p ts).magic < 2 ^ 32 ∧ (ctor t p ts).type < 2 ^ 16 ∧
      (ctor t p ts).payload_size < 2 ^ 32 ∧ (ctor t p ts).timestamp < 2 ^ 64 ∧
      (ctor t p ts).header_crc < 2 ^ 16 := by
  refine ⟨by norm_num [ctor, MAGIC_NUMBER], ?_, ?_, ?_, ?_⟩
  · exact Nat.mod_lt _ (by norm_num)
  · exact Nat.mod_lt _ (by norm_num)
  · exact Nat.mod_lt _ (by norm_num)
  · exact crc16_lt _

/-- A header built by the constructor passes `is_valid` exactly when its
narrowed payload size is within the 100 MiB bound. -/
theorem ctor_is_valid (t p ts : Nat) (hp : p % 2 ^ 32 ≤ MAX_PAYLOAD_SIZE) :
    (ctor t p ts).is_valid = true := by
  unfold is_valid
  have hmagic : (ctor t p ts).magic = MAGIC_NUMBER := rfl
  have hsize : (ctor t p ts).payload_size = p % 2 ^ 32 := rfl
  rw [hmagic, ← ctor_crc_consistent]
  simp only [hsize, ne_eq, not_true_eq_false, if_false, gt_iff_lt, Nat.not_lt.mpr hp,
    if_true, not_false_eq_true]

end MessageHeader

namespace Message

theorem build_header (type : Nat) (data : List Byte) (ts : Nat) :
    (build type data ts).header = MessageHeader.ctor type data.length ts := by
  unfold build set_payload ctor
  split
  · rename_i hempty
    rw [List.isEmpty_iff] at hempty
    subst hempty
    rfl
  · rfl

theorem build_payload (type : Nat) (data : List Byte) (ts : Nat) :
    (build type data ts).payload = data := by
  unfold build set_payload ctor
  split
  · rename_i hempty
    rw [List.isEmpty_iff] at hempty
    simp [hempty]
  · rfl

theorem build_valid (type : Nat) (data : List Byte) (ts : Nat) :
    (build type data ts).valid = true := by
  unfold build set_payload ctor
  split <;> rfl

/-- The header of a built message is valid whenever the payload fits the
100 MiB bound, and all its fields fit their widths. -/
theorem build_header_facts (type : Nat) (data : List Byte) (ts : Nat)
    (hlen : data.length ≤ MessageHeader.MAX_PAYLOAD_SIZE) :
    (build type data ts).header.is_valid = true ∧
      (build type data ts).header.payload_size = data.length := by
  have hlen32 : data.length < 2 ^ 32 := by
    have : MessageHeader.MAX_PAYLOAD_SIZE < 2 ^ 32 := by
      norm_num [MessageHeader.MAX_PAYLOAD_SIZE]
    omega
  have hmod : data.length % 2 ^ 32 = data.length := Nat.mod_eq_of_lt hlen32
  constructor
  · rw [build_header]
    exact MessageHeader.ctor_is_valid _ _ _ (by rw [hmod]; exact hlen)
  · rw [build_header]
    show data.length % 2 ^ 32 = data.length
    exact hmod

/-- The core of the round trip: deserializing the serialized bytes, into any
receiver message, succeeds and reproduces the built message. -/
theorem from_bytes_to_bytes (type ts : Nat) (data : List Byte) (m0 : Message)
    (hlen : data.length ≤ MessageHeader.MAX_PAYLOAD_SIZE) :
    m0.from_bytes (build type data ts).to_bytes = (build type data ts, true) := by
  obtain ⟨hvalidh, hps⟩ := build_header_facts type data ts hlen
  have hh := build_header type data ts
  have hpay := build_payload type data ts
  have hval := build_valid type data ts
  have hbytes : (build type data ts).to_bytes
      = (build type data ts).header.serialize ++ data := by
    rw [to_bytes, hpay]
  have hser20 : (build type data ts).header.serialize.length = 20 :=
    MessageHeader.serialize_length _
  have hranges := MessageHeader.ctor_ranges type data.length ts
  have hdeser : MessageHeader.deserialize
      ((build type data ts).header.serialize ++ data) = (build type data ts).header := by
    rw [hh]
    exact MessageHeader.deserialize_serialize _ data hranges.1 hranges.2.1
      hranges.2.2.1 hranges.2.2.2.1 hranges.2.2.2.2
  rw [from_bytes, hbytes]
  have hnot20 : ¬ (((build type data ts).header.serialize ++ data).length
      < MessageHeader.HEADER_SIZE) := by
    rw [List.length_append, hser20]
    show ¬ (20 + data.length < 20)
    omega
  rw [if_neg hnot20]
  simp only [hdeser, hvalidh, Bool.true_eq_false, not_true_eq_false, if_false,
    Bool.not_true, if_neg, ite_false, not_false_eq_true]
  have hnotlen : ¬ (((build type data ts).header.serialize ++ data).length
      < MessageHeader.HEADER_SIZE + (build type data ts).header.payload_size) := by
    rw [List.length_append, hser20, hps]
    show ¬ (20 + data.length < 20 + data.length)
    omega
  rw [if_neg hnotlen]
  have hdrop : ((build type data ts).header.serialize ++ data).drop
      MessageHeader.HEADER_SIZE = data := List.drop_left' hser20
  rw [hdrop, hps, List.take_length]
  have heta : Message.mk (build type data ts).header (build type data ts).payload
      (build type data ts).valid = build type data ts := rfl
  rw [hpay, hval] at heta
  rw [heta]

end Message

/-! ## Claim theorems -/

/-- C1: for every message whose payload size is at most 100 MiB (built the
documented way from a type, payload and timestamp), serializing with
`Message::to_bytes` and deserializing with `Message::from_bytes` (into any
receiver) succeeds and yields a message equal to the original — same type,
payload size, timestamp and payload bytes — and `is_valid()` holds on the
result. -/
theorem claim_C1_roundtrip (type timestamp : Nat) (data : List Byte) (m0 : Message)
    (hlen : data.length ≤ MessageHeader.MAX_PAYLOAD_SIZE) :
    m0.from_bytes (Message.build type data timestamp).to_bytes
        = (Message.build type data timestamp, true)
      ∧ (Message.build type data timestamp).is_valid = true := by
  refine ⟨Message.from_bytes_to_bytes type timestamp data m0 hlen, ?_⟩
  rw [Message.is_valid, Message.build_valid,
    (Message.build_header_facts type data timestamp hlen).1]
  rfl

/-- Witness for C1 at a concrete input: a 3-byte video-frame message with
timestamp 42 round-trips into a fresh receiver message. -/
theorem claim_C1_roundtrip_witness :
    ([5, 6, 7] : List Byte).length ≤ MessageHeader.MAX_PAYLOAD_SIZE
      ∧ ((Message.ctor 0 0 0).from_bytes (Message.build 1 [5, 6, 7] 42).to_bytes
            = (Message.build 1 [5, 6, 7] 42, true)
          ∧ (Message.build 1 [5, 6, 7] 42).is_valid = true) :=
  ⟨by decide, claim_C1_roundtrip 1 42 [5, 6, 7] (Message.ctor 0 0 0) (by decide)⟩

/-- C2: the serialized byte stream of a message is exactly the 20-byte header
followed contiguously by the payload (total length `20 + payload_size`), and
reading the header bytes back little-endian gives the magic 0xABCD1234 at
offset 0 (4 bytes), the type code at offset 4 (2 bytes), the payload size at
offset 6 (4 bytes), the timestamp at offset 10 (8 bytes) and the header CRC
at offset 18 (2 bytes). -/
theorem claim_C2_wire_layout (type timestamp : Nat) (data : List Byte)
    (hlen : data.length < 2 ^ 32) :
    (Message.build type data timestamp).to_bytes.length
        = MessageHeader.HEADER_SIZE
            + (Message.build type data timestamp).header.payload_size
      ∧ (Message.build type data timestamp).to_bytes.take 20
          = (Message.build type data timestamp).header.serialize
      ∧ (Message.build type data timestamp).to_bytes.drop 20
          = (Message.build type data timestamp).payload
      ∧ fromLE ((Message.build type data timestamp).to_bytes.take 4)
          = MessageHeader.MAGIC_NUMBER
      ∧ fromLE (((Message.build type data timestamp).to_bytes.drop 4).take 2)
          = (Message.build type data timestamp).header.type
      ∧ fromLE (((Message.build type data timestamp).to_bytes.drop 6).take 4)
          = (Message.build type data timestamp).header.payload_size
      ∧ fromLE (((Message.build type data timestamp).to_bytes.drop 10).take 8)
          = (Message.build type data timestamp).header.timestamp
      ∧ fromLE (((Message.build type data timestamp).to_bytes.drop 18).take 2)
          = (Message.build type data timestamp).header.header_crc := by
  have hpay := Message.build_payload type data timestamp
  have hh := Message.build_header type data timestamp
  have hbytes : (Message.build type data timestamp).to_bytes
      = (Message.build type data timestamp).header.serialize ++ data := by
    rw [Message.to_bytes, hpay]
  have hser20 : (Message.build type data timestamp).header.serialize.length = 20 :=
    MessageHeader.serialize_length _
  have hranges := MessageHeader.ctor_ranges type data.length timestamp
  have hdeser : MessageHeader.deserialize
      ((Message.build type data timestamp).header.serialize ++ data)
        = (Message.build type data timestamp).header := by
    rw [hh]
    exact MessageHeader.deserialize_serialize _ data hranges.1 hranges.2.1
      hranges.2.2.1 hranges.2.2.2.1 hranges.2.2.2.2
  have hps : (Message.build type data timestamp).header.payload_size
      = data.length := by
    rw [hh]
    show data.length % 2 ^ 32 = data.length
    exact Nat.mod_eq_of_lt hlen
  refine ⟨?_, ?_, ?_, ?_, ?_, ?_, ?_, ?_⟩
  · rw [hbytes, List.length_append, hser20, hps]; rfl
  · rw [hbytes]; exact List.take_left' hser20
  · rw [hbytes, hpay]; exact List.drop_left' hser20
  · have : fromLE (((Message.build type data timestamp).header.serialize
        ++ data).take 4) = (MessageHeader.deserialize
          ((Message.build type data timestamp).header.serialize ++ data)).magic := rfl
    rw [hbytes, this, hdeser, hh]; rfl
  · have : fromLE ((((Message.build type data timestamp).header.serialize
        ++ data).drop 4).take 2) = (MessageHeader.deserialize
          ((Message.build type data timestamp).header.serialize ++ data)).type := rfl
    rw [hbytes, this, hdeser]
  · have : fromLE ((((Message.build type data timestamp).header.serialize
        ++ data).drop 6).take 4) = (MessageHeader.deserialize
          ((Message.build type data timestamp).header.serialize ++ data)).payload_size := rfl
    rw [hbytes, this, hdeser]
  · have : fromLE ((((Message.build type data timestamp).header.serialize
        ++ data).drop 10).take 8) = (MessageHeader.deserialize
          ((Message.build type data timestamp).header.serialize ++ data)).timestamp := rfl
    rw [hbytes, this, hdeser]
  · have : fromLE ((((Message.build type data timestamp).header.serialize
        ++ data).drop 18).take 2) = (MessageHeader.deserialize
          ((Message.build type data timestamp).header.serialize ++ data)).header_crc := rfl
    rw [hbytes, this, hdeser]

/-- Witness for C2 at a concrete input: the wire layout of a 2-byte
heartbeat-typed message. -/
theorem claim_C2_wire_layout_witness :
    ([9, 10] : List Byte).length < 2 ^ 32
      ∧ ((Message.build 200 [9, 10] 7).to_bytes.length
            = MessageHeader.HEADER_SIZE + (Message.build 200 [9, 10] 7).header.payload_size
          ∧ (Message.build 200 [9, 10] 7).to_bytes.take 20
              = (Message.build 200 [9, 10] 7).header.serialize
          ∧ (Message.build 200 [9, 10] 7).to_bytes.drop 20
              = (Message.build 200 [9, 10] 7).payload
          ∧ fromLE ((Message.build 200 [9, 10] 7).to_bytes.take 4)
              = MessageHeader.MAGIC_NUMBER
          ∧ fromLE (((Message.build 200 [9, 10] 7).to_bytes.drop 4).take 2)
              = (Message.build 200 [9, 10] 7).header.type
          ∧ fromLE (((Message.build 200 [9, 10] 7).to_bytes.drop 6).take 4)
              = (Message.build 200 [9, 10] 7).header.payload_size
          ∧ fromLE (((Message.build 200 [9, 10] 7).to_bytes.drop 10).take 8)
              = (Message.build 200 [9, 10] 7).header.timestamp
          ∧ fromLE (((Message.build 200 [9, 10] 7).to_bytes.drop 18).take 2)
              = (Message.build 200 [9, 10] 7).header.header_crc) :=
  ⟨by decide, claim_C2_wire_layout 200 7 [9, 10] (by decide)⟩

/-- C3: `MessageHeader::is_valid()` returns true exactly when the magic equals
0xABCD1234, the payload size is at most 100 MiB, and the stored CRC equals the
CRC-16 (polynomial 0xA001, initial value 0xFFFF, reflected bit-by-bit update)
computed over bytes 0..17 of the header's wire image; any failing check makes
the header invalid. The source applies the three checks in that order. -/
theorem claim_C3_header_validity (h : MessageHeader) :
    h.is_valid = true ↔
      (h.magic = MessageHeader.MAGIC_NUMBER
        ∧ h.payload_size ≤ MessageHeader.MAX_PAYLOAD_SIZE
        ∧ h.header_crc = MessageHeader.crc16 (h.serialize.take 18)) := by
  rw [MessageHeader.headerBytes18_eq_take]
  unfold MessageHeader.is_valid
  split_ifs with h1 h2 h3
  · simp only [Bool.false_eq_true, false_iff]
    rintro ⟨hm, -, -⟩
    exact h1 hm
  · simp only [Bool.false_eq_true, false_iff]
    rintro ⟨-, hle, -⟩
    rw [MessageHeader.MAX_PAYLOAD_SIZE] at hle h2
    omega
  · simp only [Bool.false_eq_true, false_iff]
    rintro ⟨-, -, hcrc⟩
    exact h3 hcrc
  · push_neg at h1 h2 h3
    simp only [true_iff]
    exact ⟨h1, by omega, h3⟩

/-- C5 (code-bug exhibit): a write whose accepted size exactly fills the ring
buffer loses every byte it accepted. Into an empty 4-byte buffer, `write` of
4 bytes stores all 4 and returns 4 — but it leaves `write_pos == read_pos`,
so `available_data()` reports 0 and a subsequent `read` returns nothing: the
accepted bytes are never returned. -/
theorem claim_C5_exact_fill_loses_data :
    (CircularBuffer.ctor 4).write [1, 2, 3, 4]
        = (4, ⟨4, [1, 2, 3, 4], 0, 0⟩)
      ∧ CircularBuffer.available_data ⟨4, [1, 2, 3, 4], 0, 0⟩ = 0
      ∧ CircularBuffer.read ⟨4, [1, 2, 3, 4], 0, 0⟩ 4
          = ([], ⟨4, [1, 2, 3, 4], 0, 0⟩) := by
  refine ⟨by decide, by decide, by decide⟩

/-- Helper: a pipeline stage output is either the input queue or one push on
it, so a chain of two stages only appends and preserves the shutdown flag. -/
theorem SafeQueue.append_chain {α : Type} {q q1 q2 : SafeQueue α}
    (h1 : q1 = q ∨ ∃ m, q1 = q.push m) (h2 : q2 = q1 ∨ ∃ m, q2 = q1.push m) :
    ∃ new, q2.items = q.items ++ new ∧ q2.shutdown_flag = q.shutdown_flag := by
  rcases h1 with rfl | ⟨m1, rfl⟩ <;> rcases h2 with rfl | ⟨m2, rfl⟩
  · exact ⟨[], by simp, rfl⟩
  · exact ⟨[m2], by simp [SafeQueue.push], rfl⟩
  · exact ⟨[m1], by simp [SafeQueue.push], rfl⟩
  · exact ⟨[m1, m2], by simp [SafeQueue.push], rfl⟩

theorem MediaProcessor.videoStage_cases (cfg : CompressionConfig)
    (running : Bool) (rawV : Option AVFrame) (oV : AVFrame) (tsV : Nat)
    (outq : SafeQueue Message) :
    MediaProcessor.videoStage cfg running rawV oV tsV outq = outq
      ∨ ∃ m, MediaProcessor.videoStage cfg running rawV oV tsV outq = outq.push m := by
  unfold MediaProcessor.videoStage
  cases rawV with
  | none => exact Or.inl rfl
  | some v =>
    cases hev : CompressionEngine.encode_video running cfg v oV with
    | none => exact Or.inl (by simp [hev])
    | some ev => exact Or.inr ⟨Message.build 1 ev.data tsV, by simp [hev]⟩

theorem MediaProcessor.audioStage_cases (cfg : CompressionConfig)
    (running : Bool) (rawA : Option AVFrame) (oA : AVFrame) (tsA : Nat)
    (outq : SafeQueue Message) :
    MediaProcessor.audioStage cfg running rawA oA tsA outq = outq
      ∨ ∃ m, MediaProcessor.audioStage cfg running rawA oA tsA outq = outq.push m := by
  unfold MediaProcessor.audioStage
  cases rawA with
  | none => exact Or.inl rfl
  | some a =>
    cases hea : CompressionEngine.encode_audio running cfg a oA with
    | none => exact Or.inl (by simp [hea])
    | some ea => exact Or.inr ⟨Message.build 2 ea.data tsA, by simp [hea]⟩

/-- C6 counterexample: the pipeline's output queue is not bounded. There is no
capacity `K` at which a push onto a `K`-element queue stops adding:
`SafeQueue::push` grows the queue at every size. -/
theorem claim_C6_bounded_counterexample :
    ¬ ∃ K : Nat, ∀ q : SafeQueue Message, q.items.length = K →
        ((q.push (Message.build 0 [] 0)).items.length ≤ K) := by
  rintro ⟨K, hK⟩
  have h := hK ⟨List.replicate K (Message.build 0 [] 0), false⟩ (by simp)
  simp only [SafeQueue.push, List.length_append, List.length_replicate,
    List.length_cons, List.length_nil] at h
  omega

/-- C6 (amended): the pipeline's output queue is unbounded — `push` appends
unconditionally at every queue size — and one iteration of the pipeline task
only appends messages to the output queue, never draining it (the distributor
is the only consumer in the source). -/
theorem claim_C6_output_queue_unbounded :
    (∀ (q : SafeQueue Message) (m : Message), (q.push m).items = q.items ++ [m])
      ∧ (∀ (cfg : CompressionConfig) (running : Bool) (rawV rawA : Option AVFrame)
          (oV oA : AVFrame) (tsV tsA : Nat) (outq : SafeQueue Message),
          ∃ newMsgs,
            (MediaProcessor.processIteration cfg running rawV rawA oV oA tsV tsA
                outq).items = outq.items ++ newMsgs
            ∧ (MediaProcessor.processIteration cfg running rawV rawA oV oA tsV tsA
                outq).shutdown_flag = outq.shutdown_flag) := by
  refine ⟨fun q m => rfl, ?_⟩
  intro cfg running rawV rawA oV oA tsV tsA outq
  exact SafeQueue.append_chain
    (MediaProcessor.videoStage_cases cfg running rawV oV tsV outq)
    (MediaProcessor.audioStage_cases cfg running rawA oA tsA _)

/-- C7 (code-bug exhibit): with the snapshot holding a stuck subscriber first
and a healthy one second, the sequential synchronous fan-out of
`distribution_loop` delivers to nobody — the healthy subscriber is starved
behind the stuck `send` — whereas the same healthy subscriber alone receives
the message. -/
theorem claim_C7_stuck_subscriber_blocks :
    AVServer.fanout
        [⟨1, true, some AVServer.SendBehavior.stuck⟩,
          ⟨2, true, some AVServer.SendBehavior.ok⟩] = []
      ∧ AVServer.fanout [⟨2, true, some AVServer.SendBehavior.ok⟩] = [2] := by
  exact ⟨rfl, rfl⟩

/-- C8 counterexample: a 1920x1080 video frame whose byte size is 100000 (the
capture simulator clamps frame data to 100000 bytes) encoded at quality 80
succeeds with the input timestamp preserved, but the output payload size is
2332800 — 0.75 of the nominal YUV420 size (1920*1080*3/2 = 3110400) — and not
0.75 of the input frame's byte size (which would be 75000). -/
theorem claim_C8_video_size_counterexample :
    (CompressionEngine.encode_video true ⟨6, 80, 5000000⟩
        ⟨0, 0, 1920, 1080, 0, 0, 7, 0, List.replicate 100000 0, 100000, 0, 80⟩
        ⟨0, 0, 0, 0, 0, 0, 0, 0, [], 0, 0, 80⟩).map (fun f => (f.timestamp, f.size))
        = some (7, 2332800)
      ∧ (2332800 : Nat) ≠ 100000 * 3 / 4 := by
  exact ⟨rfl, by decide⟩

/-- C8 (amended): every `encode_video` / `encode_audio` call on a running
engine succeeds and preserves the input timestamp; the output payload size is
the quality tier's fraction — 0.75 for quality ≥ 80, 0.60 for 50 ≤ quality
< 80, 0.40 below 50, truncated — of the size base, which for audio is the
input frame's byte size and for video is the nominal YUV420 size
`(width * height * 3) / 2` computed from the frame's dimensions in `uint32_t`
arithmetic (not the input's byte size). -/
theorem claim_C8_encode_contract (cfg : CompressionConfig) (input o : AVFrame) :
    (∃ out, CompressionEngine.encode_video true cfg input o = some out
        ∧ out.timestamp = input.timestamp
        ∧ out.size =
            (if cfg.quality ≥ 80 then (input.width * input.height * 3 % 2 ^ 32 / 2) * 3 / 4
              else if cfg.quality ≥ 50 then (input.width * input.height * 3 % 2 ^ 32 / 2) * 3 / 5
              else (input.width * input.height * 3 % 2 ^ 32 / 2) * 2 / 5))
      ∧ (∃ out, CompressionEngine.encode_audio true cfg input o = some out
          ∧ out.timestamp = input.timestamp
          ∧ out.size =
              (if cfg.quality ≥ 80 then input.size * 3 / 4
                else if cfg.quality ≥ 50 then input.size * 3 / 5
                else input.size * 2 / 5)) := by
  constructor
  · exact ⟨_, rfl, rfl, rfl⟩
  · exact ⟨_, rfl, rfl, rfl⟩

/-- Helper: `pop` on a nonempty queue pops the front, whatever the shutdown
flag. -/
theorem SafeQueue.pop_cons {α : Type} (x : α) (rest : List α) (b : Bool) :
    SafeQueue.pop ⟨x :: rest, b⟩ = (.popped x, ⟨rest, b⟩) := by
  simp [SafeQueue.pop]

/-- Helper: `pop` on an empty shut-down queue returns the closed sentinel. -/
theorem SafeQueue.pop_nil_shutdown {α : Type} :
    SafeQueue.pop (⟨[], true⟩ : SafeQueue α) = (.closed, ⟨[], true⟩) := by
  simp [SafeQueue.pop]

/-- Helper: draining a shut-down queue returns all items in FIFO order and
ends on the closed sentinel. -/
theorem SafeQueue.drainFuel_shutdown {α : Type} (l : List α) :
    SafeQueue.drainFuel (l.length + 1) ⟨l, true⟩ = (l, ⟨[], true⟩) := by
  induction l with
  | nil =>
    simp [SafeQueue.drainFuel, SafeQueue.pop_nil_shutdown]
  | cons x rest ih =>
    show SafeQueue.drainFuel (rest.length + 1 + 1) ⟨x :: rest, true⟩ = _
    rw [SafeQueue.drainFuel, SafeQueue.pop_cons]
    show (x :: (SafeQueue.drainFuel (rest.length + 1) (⟨rest, true⟩ : SafeQueue α)).1,
        (SafeQueue.drainFuel (rest.length + 1) (⟨rest, true⟩ : SafeQueue α)).2) = _
    rw [ih]

/-- C9: `SafeQueue::shutdown` is idempotent, no `pop` can block after it (the
wait predicate is satisfied, so every waiter is woken), and after shutdown
`pop` first drains the remaining items in FIFO order, returning true for
each, and then returns false on the empty queue. -/
theorem claim_C9_shutdown_semantics (α : Type) :
    (∀ q : SafeQueue α, q.shutdown.shutdown = q.shutdown)
      ∧ (∀ q : SafeQueue α, (q.shutdown.pop).1 ≠ SafeQueue.PopOutcome.blocked)
      ∧ (∀ l : List α,
          SafeQueue.drainFuel (l.length + 1) ⟨l, true⟩ = (l, ⟨[], true⟩)) := by
  refine ⟨fun q => rfl, ?_, SafeQueue.drainFuel_shutdown⟩
  rintro ⟨items, b⟩
  cases items <;> simp [SafeQueue.pop, SafeQueue.shutdown]

/-- C10: shutting down a `SafeQueue` does not disable `push` — `push` behaves
identically whatever the shutdown flag, appending unconditionally (only the
pop operations consult the flag) — and an item pushed after shutdown is still
returned, with result true, by the drain that precedes the final false. -/
theorem claim_C10_push_after_shutdown (α : Type) :
    (∀ (q : SafeQueue α) (x : α), q.push x = ⟨q.items ++ [x], q.shutdown_flag⟩)
      ∧ (∀ (l : List α) (x : α),
          SafeQueue.drainFuel (l.length + 2) ((SafeQueue.shutdown ⟨l, false⟩).push x)
            = (l ++ [x], ⟨[], true⟩)) := by
  refine ⟨fun q x => rfl, ?_⟩
  intro l x
  have h1 : (SafeQueue.shutdown ⟨l, false⟩).push x = (⟨l ++ [x], true⟩ : SafeQueue α) := rfl
  have h3 : (l ++ [x]).length + 1 = l.length + 2 := by simp
  rw [h1, ← h3, SafeQueue.drainFuel_shutdown]

/-! ## Helper lemmas for the receive engine (C4) -/

namespace CircularBuffer

theorem available_data_lt (s : CircularBuffer) (hwf : s.WF) :
    s.available_data < s.capacity := by
  obtain ⟨hbuf, hr, hw⟩ := hwf
  simp only [available_data]
  split_ifs <;> omega

/-- `read` copies out the same bytes that `peek` shows. -/
theorem read_fst (s : CircularBuffer) (n : Nat) : (s.read n).1 = s.outBytes n := by
  simp only [read]
  split_ifs with h1
  · simp only [outBytes, h1, if_pos]
  · rfl
  · rfl

/-- A satisfiable request copies out exactly the requested number of bytes. -/
theorem outBytes_length (s : CircularBuffer) (hwf : s.WF) {n : Nat}
    (hn : n ≤ s.available_data) : (s.outBytes n).length = n := by
  have havail := available_data_lt s hwf
  obtain ⟨hbuf, hr, hw⟩ := hwf
  simp only [outBytes, Nat.min_eq_left hn]
  split_ifs with h0 h1
  · simp only [List.length_nil]
    omega
  · simp only [List.length_take, List.length_drop, hbuf]
    omega
  · simp only [List.length_append, List.length_take, List.length_drop, hbuf]
    omega

/-- The first `m` bytes shown for a request of `n ≥ m` bytes are the bytes
shown for a request of `m`. -/
theorem outBytes_take (s : CircularBuffer) (hwf : s.WF) {m n : Nat}
    (hmn : m ≤ n) (hn : n ≤ s.available_data) :
    (s.outBytes n).take m = s.outBytes m := by
  have havail := available_data_lt s hwf
  obtain ⟨hbuf, hr, hw⟩ := hwf
  simp only [outBytes, Nat.min_eq_left hn, Nat.min_eq_left (le_trans hmn hn)]
  by_cases hm0 : m = 0
  · simp [hm0]
  have hn0 : ¬ n = 0 := by omega
  rw [if_neg hn0, if_neg hm0]
  by_cases hrn : s.read_pos + n ≤ s.capacity
  · have hrm : s.read_pos + m ≤ s.capacity := by omega
    rw [if_pos hrn, if_pos hrm, List.take_take, Nat.min_eq_left hmn]
  · rw [if_neg hrn]
    have hfstlen : ((s.buffer.drop s.read_pos).take (s.capacity - s.read_pos)).length
        = s.capacity - s.read_pos := by
      simp only [List.length_take, List.length_drop, hbuf]
      omega
    by_cases hrm : s.read_pos + m ≤ s.capacity
    · rw [if_pos hrm]
      rw [List.take_append_of_le_length (by rw [hfstlen]; omega)]
      rw [List.take_take, Nat.min_eq_left (by omega)]
    · rw [if_neg hrm]
      have happ := @List.take_append Byte
        ((s.buffer.drop s.read_pos).take (s.capacity - s.read_pos))
        (s.buffer.take (n - (s.capacity - s.read_pos)))
        (m - (s.capacity - s.read_pos))
      rw [hfstlen] at happ
      have hfpm : s.capacity - s.read_pos + (m - (s.capacity - s.read_pos)) = m := by
        omega
      rw [hfpm] at happ
      rw [happ, List.take_take, Nat.min_eq_left (by omega)]

end CircularBuffer

namespace MessageHeader

/-- `deserialize` reads only the first 20 bytes of its input. -/
theorem deserialize_take20 {bs₁ bs₂ : List Byte} (h : bs₁.take 20 = bs₂.take 20) :
    deserialize bs₁ = deserialize bs₂ := by
  have slice : ∀ k w : Nat, k + w ≤ 20 →
      (bs₁.drop k).take w = (bs₂.drop k).take w := by
    intro k w hkw
    rw [List.take_drop, List.take_drop]
    have e1 : bs₁.take (k + w) = bs₂.take (k + w) := by
      have t1 : (bs₁.take 20).take (k + w) = (bs₂.take 20).take (k + w) := by rw [h]
      rwa [List.take_take, List.take_take, Nat.min_eq_left hkw] at t1
    rw [e1]
  have h4 : bs₁.take 4 = bs₂.take 4 := by
    have t1 : (bs₁.take 20).take 4 = (bs₂.take 20).take 4 := by rw [h]
    rwa [List.take_take, List.take_take] at t1
  unfold deserialize
  rw [h4, slice 4 2 (by norm_num), slice 6 4 (by norm_num),
    slice 10 8 (by norm_num), slice 18 2 (by norm_num)]

end MessageHeader

/-- `Message::from_bytes` succeeds on any byte block whose first 20 bytes
deserialize to a valid header and whose length is exactly
`20 + payload_size`. -/
theorem Message.from_bytes_success (m0 : Message) (bs : List Byte)
    (hlen : bs.length
      = MessageHeader.HEADER_SIZE + (MessageHeader.deserialize bs).payload_size)
    (hv : (MessageHeader.deserialize bs).is_valid = true) :
    (m0.from_bytes bs).2 = true := by
  have hsz : MessageHeader.HEADER_SIZE = 20 := rfl
  simp only [Message.from_bytes]
  rw [if_neg (show ¬ (bs.length < MessageHeader.HEADER_SIZE) by omega)]
  rw [if_neg (show ¬ ¬ (MessageHeader.deserialize bs).is_valid = true by simp [hv])]
  rw [if_neg (show ¬ (bs.length
    < MessageHeader.HEADER_SIZE + (MessageHeader.deserialize bs).payload_size) by omega)]

/-- C4: whenever `Connection::try_extract_message` finds that the peeked
20-byte header fails validation, the entire ring buffer is cleared (both
positions reset, all buffered bytes dropped) and the connection continues;
and whenever deserialization of a complete message fails after the header
validated, the ring buffer holds no more data either — in fact that branch is
unreachable: with a valid header and exactly `20 + payload_size` bytes read,
`Message::from_bytes` always succeeds. -/
theorem claim_C4_resync_policy (s : CircularBuffer) (hwf : s.WF) :
    ((Connection.try_extract_message s).1 = Connection.ExtractOutcome.badHeader →
        (Connection.try_extract_message s).2 = s.clear
          ∧ ((Connection.try_extract_message s).2).available_data = 0)
      ∧ ((Connection.try_extract_message s).1 = Connection.ExtractOutcome.deserFail →
          ((Connection.try_extract_message s).2).available_data = 0)
      ∧ (Connection.try_extract_message s).1 ≠ Connection.ExtractOutcome.deserFail := by
  have hsz : MessageHeader.HEADER_SIZE = 20 := rfl
  by_cases hA : s.available_data < MessageHeader.HEADER_SIZE
  · simp [Connection.try_extract_message, hA]
  · have h20A : MessageHeader.HEADER_SIZE ≤ s.available_data := Nat.not_lt.mp hA
    have hpeek : (s.peek MessageHeader.HEADER_SIZE).length = MessageHeader.HEADER_SIZE :=
      s.outBytes_length hwf h20A
    set hdr := MessageHeader.deserialize (s.peek MessageHeader.HEADER_SIZE) with hhdr
    by_cases hv : hdr.is_valid = true
    · -- valid header: either more bytes are needed, or extraction succeeds.
      by_cases hfull : s.available_data < MessageHeader.HEADER_SIZE + hdr.payload_size
      · simp [Connection.try_extract_message, hA, hpeek, ← hhdr, hv, hfull]
      · have htotA : MessageHeader.HEADER_SIZE + hdr.payload_size
            ≤ s.available_data := Nat.not_lt.mp hfull
        rcases hread : s.read (MessageHeader.HEADER_SIZE + hdr.payload_size) with ⟨B, S2⟩
        have hB : B = s.outBytes (MessageHeader.HEADER_SIZE + hdr.payload_size) := by
          rw [← CircularBuffer.read_fst s (MessageHeader.HEADER_SIZE + hdr.payload_size),
            hread]
        have hlenB : B.length = MessageHeader.HEADER_SIZE + hdr.payload_size := by
          rw [hB]
          exact s.outBytes_length hwf htotA
        have hdeqB : MessageHeader.deserialize B = hdr := by
          rw [hB]
          apply MessageHeader.deserialize_take20
          rw [s.outBytes_take hwf (by omega) htotA]
          have hp20 : (s.peek MessageHeader.HEADER_SIZE).take 20
              = s.peek MessageHeader.HEADER_SIZE :=
            List.take_of_length_le (le_of_eq hpeek)
          rw [hp20]
          rfl
        have hfb : ((Message.ctor 0 0 0).from_bytes B).2 = true :=
          Message.from_bytes_success _ _ (by rw [hlenB, hdeqB]) (by rw [hdeqB]; exact hv)
        rcases hm : (Message.ctor 0 0 0).from_bytes B with ⟨m, ok⟩
        have hok : ok = true := by
          rw [hm] at hfb
          exact hfb
        subst hok
        simp [Connection.try_extract_message, hA, hpeek, ← hhdr, hv, hfull,
          hread, hlenB, hm]
    · -- invalid header: framing error, buffer cleared.
      have hcleared : (CircularBuffer.clear s).available_data = 0 := by
        simp [CircularBuffer.clear, CircularBuffer.available_data]
      simp [Connection.try_extract_message, hA, hpeek, ← hhdr, hv, hcleared]

/-- Witness for C4 at a concrete input: a well-formed 32-byte ring holding 20
zero bytes (whose magic field is 0, not 0xABCD1234); extraction reports a
framing error and the buffer comes back cleared. -/
theorem claim_C4_resync_policy_witness :
    CircularBuffer.WF ⟨32, List.replicate 32 0, 20, 0⟩
      ∧ (Connection.try_extract_message ⟨32, List.replicate 32 0, 20, 0⟩).1
          = Connection.ExtractOutcome.badHeader
      ∧ (((Connection.try_extract_message ⟨32, List.replicate 32 0, 20, 0⟩).1
              = Connection.ExtractOutcome.badHeader →
            (Connection.try_extract_message ⟨32, List.replicate 32 0, 20, 0⟩).2
                = CircularBuffer.clear ⟨32, List.replicate 32 0, 20, 0⟩
              ∧ ((Connection.try_extract_message
                  ⟨32, List.replicate 32 0, 20, 0⟩).2).available_data = 0)
          ∧ ((Connection.try_extract_message ⟨32, List.replicate 32 0, 20, 0⟩).1
                = Connection.ExtractOutcome.deserFail →
              ((Connection.try_extract_message
                  ⟨32, List.replicate 32 0, 20, 0⟩).2).available_data = 0)
          ∧ (Connection.try_extract_message ⟨32, List.replicate 32 0, 20, 0⟩).1
              ≠ Connection.ExtractOutcome.deserFail) :=
  ⟨by decide, by decide, claim_C4_resync_policy _ (by decide)⟩


